import Mathlib

/-!
Shallow embedding of `examples/mnist_full_logs.py` (the only source file of
the `ciclo` repository snapshot under verification).

Conventions of the embedding:
* numeric arrays are lists of `Rat` (exact arithmetic stands in for float
  arithmetic; every claim below is structural, none depends on rounding);
* framework primitives whose numeric content no claim depends on
  (`optax.softmax_cross_entropy_with_integer_labels` mean, the gradient
  produced by `jax.value_and_grad`, the `optax.adamw` transformation) are
  parameters of the embedding, so every theorem quantifies over them;
* the `clu.metrics` classes `Average`, `Accuracy` and `Collection` are
  embedded with their documented semantics (total/count pairs, `merge`
  adds componentwise, `Accuracy` averages the `argmax(logits) == label`
  indicator);
* the `ciclo` library itself belongs to this repository but is not under
  `src/`; its loop scheduling is modelled from the spec where a claim
  needs it, marked `Modelled from the spec:`.
-/

/-- A single MNIST image: 28 rows of 28 pixel values (the trailing channel
dimension of size 1 is elided; `reshape((batch, -1))` flattens it away). -/
abbrev Image : Type := List (List Rat)

/-- Parameters of a `flax.linen.Dense` layer, kernel stored column-major:
one inner list per output feature (so `kernel.length` is the feature count). -/
structure DenseParams where
  kernel : List (List Rat)
  bias : List Rat
deriving Repr, DecidableEq

/-- Dot product of two coefficient lists. -/
def dot (a b : List Rat) : Rat := (List.zipWith (fun x y => x * y) a b).sum

/-- `flax.linen.Dense` application: `y j = (x . kernel_col j) + bias j`. -/
def denseApply (p : DenseParams) (v : List Rat) : List Rat :=
  List.zipWith (fun col b => dot v col + b) p.kernel p.bias

/-- `x = x / 255.0` applied to an image. -/
def scaleImage (img : Image) : Image :=
  img.map (fun row => row.map (fun v => v / 255))

/-- `x.reshape((x.shape[0], -1))` applied to one image of the batch. -/
def flattenImage (img : Image) : List Rat := img.flatten

/-- The model `Linear.__call__`: scale by `1/255.0`, flatten, then a single
`nn.Dense(features=10)` layer, applied to each image of the batch. -/
def Linear.call (p : DenseParams) (xs : List Image) : List (List Rat) :=
  xs.map (fun img => denseApply p (flattenImage (scaleImage img)))

/-- State of a `clu.metrics.Average` metric: running total and count. -/
structure AverageState where
  total : Rat
  count : Nat
deriving Repr, DecidableEq

/-- `clu.metrics.Average.merge`: totals and counts add. -/
def AverageState.merge (a b : AverageState) : AverageState :=
  ⟨a.total + b.total, a.count + b.count⟩

/-- `clu.metrics.Average.empty`. -/
def AverageState.emptyState : AverageState := ⟨0, 0⟩

/-- `clu.metrics.Average.compute`: the running mean. -/
def AverageState.compute (a : AverageState) : Rat := a.total / (a.count : Rat)

/-- Index of the first maximal entry, as `jnp.argmax` computes it. -/
def argmaxAux : List Rat → Nat → Nat → Rat → Nat
  | [], _, bi, _ => bi
  | x :: xs, i, bi, bv =>
      if bv < x then argmaxAux xs (i + 1) i x else argmaxAux xs (i + 1) bi bv

/-- `jnp.argmax` over one logits row (0 on an empty row). -/
def argmax : List Rat → Nat
  | [] => 0
  | x :: xs => argmaxAux xs 1 0 x

/-- Total of the `argmax(logits) == label` indicator over a batch, the
quantity `clu.metrics.Accuracy` accumulates as its running total. -/
def correctTotal (logits : List (List Rat)) (labels : List Nat) : Rat :=
  (List.zipWith (fun lg lb => if argmax lg = lb then (1 : Rat) else 0)
    logits labels).sum

/-- The keyword arguments the script passes to its metric updates:
`loss=loss, logits=logits, labels=batch["label"]`. -/
structure ModelOutput where
  loss : Rat
  logits : List (List Rat)
  labels : List Nat
deriving Repr, DecidableEq

/-- The script's `Metrics(Collection)`: a `loss` metric that is
`Average.from_output("loss")` and an `accuracy` metric that is
`clu.metrics.Accuracy`. -/
structure Metrics where
  loss : AverageState
  accuracy : AverageState
deriving Repr, DecidableEq

/-- `clu.metrics.Collection.empty` for the script's collection (a
classmethod: its result never depends on the instance it is called on). -/
def Metrics.empty : Metrics := ⟨AverageState.emptyState, AverageState.emptyState⟩

/-- `Collection.single_from_model_output(loss=..., logits=..., labels=...)`:
`Average.from_output("loss")` yields total `loss` and count 1 (the script's
loss is a scalar mean), `Accuracy.from_model_output` yields the number of
correct argmax predictions over the batch with count `labels.size`. -/
def Metrics.single_from_model_output (kw : ModelOutput) : Metrics :=
  ⟨⟨kw.loss, 1⟩, ⟨correctTotal kw.logits kw.labels, kw.labels.length⟩⟩

/-- `Collection.merge`: metric-wise merge. -/
def Metrics.merge (a b : Metrics) : Metrics :=
  ⟨a.loss.merge b.loss, a.accuracy.merge b.accuracy⟩

/-- The script's `Metrics.update`:
`updates = self.single_from_model_output(**kwargs); return self.merge(updates)`. -/
def Metrics.update (m : Metrics) (kw : ModelOutput) : Metrics :=
  m.merge (Metrics.single_from_model_output kw)

/-- Result of `Collection.compute` for the script's collection. -/
structure ComputedMetrics where
  loss : Rat
  accuracy : Rat
deriving Repr, DecidableEq

/-- `Collection.compute`: each metric's running mean. -/
def Metrics.compute (m : Metrics) : ComputedMetrics :=
  ⟨m.loss.compute, m.accuracy.compute⟩

/-- An `optax` gradient transformation with optimizer-state type `O`:
`init` builds the initial optimizer state, `update grads opt_state params`
returns the parameter updates and the new optimizer state. -/
structure GradientTransformation (O : Type) where
  init : DenseParams → O
  update : DenseParams → O → DenseParams → DenseParams × O

/-- `optax.apply_updates`: elementwise addition of updates to parameters. -/
def applyUpdates (p u : DenseParams) : DenseParams :=
  ⟨List.zipWith (List.zipWith (fun a b => a + b)) p.kernel u.kernel,
   List.zipWith (fun a b => a + b) p.bias u.bias⟩

/-- The script's `TrainState(train_state.TrainState)`: the flax training
state fields `step`, `apply_fn`, `params`, `tx`, `opt_state` plus the added
`metrics : Metrics` field. -/
structure TrainState (O : Type) where
  step : Nat
  apply_fn : DenseParams → List Image → List (List Rat)
  params : DenseParams
  tx : GradientTransformation O
  opt_state : O
  metrics : Metrics

/-- `flax.training.train_state.TrainState.create`: step 0, optimizer state
built by `tx.init(params)`, remaining fields as given. -/
def TrainState.create {O : Type} (apply_fn : DenseParams → List Image → List (List Rat))
    (params : DenseParams) (tx : GradientTransformation O) (metrics : Metrics) :
    TrainState O :=
  { step := 0, apply_fn := apply_fn, params := params, tx := tx,
    opt_state := tx.init params, metrics := metrics }

/-- `TrainState.apply_gradients`: run the gradient transformation, apply the
updates to the parameters, advance the step counter; all other fields
(including `metrics`) are carried over unchanged by the dataclass replace. -/
def TrainState.apply_gradients {O : Type} (s : TrainState O) (grads : DenseParams) :
    TrainState O :=
  let r := s.tx.update grads s.opt_state s.params
  { s with step := s.step + 1, params := applyUpdates s.params r.1, opt_state := r.2 }

/-- A batch from the dataset iterator: `batch["image"]` and `batch["label"]`. -/
structure Batch where
  image : List Image
  label : List Nat

/-- The framework primitives the step functions call through to, left
abstract because no claim depends on their numeric values: the mean of
`optax.softmax_cross_entropy_with_integer_labels` over a batch, and the
gradient part of `jax.value_and_grad`. -/
structure Framework where
  softmaxCEMean : List (List Rat) → List Nat → Rat
  gradOf : (DenseParams → Rat × List (List Rat)) → DenseParams → DenseParams

/-- `jax.value_and_grad(f, has_aux=True)(p)`: the value part is `f p`
itself (jax returns the function's value at the evaluation point), paired
with the framework-computed gradient. -/
def valueAndGrad (F : Framework) (f : DenseParams → Rat × List (List Rat))
    (p : DenseParams) : (Rat × List (List Rat)) × DenseParams :=
  (f p, F.gradOf f p)

/-- The closure `loss_fn` inside `train_step`: logits from
`state.apply_fn({"params": params}, batch["image"])`, mean softmax
cross-entropy against `batch["label"]`, returned with the logits as aux. -/
def loss_fn {O : Type} (F : Framework) (state : TrainState O) (batch : Batch)
    (params : DenseParams) : Rat × List (List Rat) :=
  let logits := state.apply_fn params batch.image
  let loss := F.softmaxCEMean logits batch.label
  (loss, logits)

/-- The script's `train_step`: value-and-grad of `loss_fn` at the current
parameters, `apply_gradients`, then record the (pre-update) loss and logits
into the metrics of the returned state via `state.replace(metrics=...)`. -/
def train_step {O : Type} (F : Framework) (state : TrainState O) (batch : Batch) :
    TrainState O :=
  let vg := valueAndGrad F (loss_fn F state batch) state.params
  let state2 := state.apply_gradients vg.2
  let metrics := state2.metrics.update ⟨vg.1.1, vg.1.2, batch.label⟩
  { state2 with metrics := metrics }

/-- Result of the script's `compute_metrics`: `{"stateful_metrics": logs}`. -/
structure StepLogs where
  stateful_metrics : ComputedMetrics
deriving Repr, DecidableEq

/-- The script's `compute_metrics`. -/
def compute_metrics {O : Type} (state : TrainState O) : StepLogs :=
  ⟨state.metrics.compute⟩

namespace ciclo

/-- Modelled from the spec: the log container returned by `ciclo.logs()`
(the `ciclo` library is repository code not present under `src/`); it can
hold one stateful-metrics record. -/
structure Logs where
  stateful_metrics : Option ComputedMetrics
deriving Repr, DecidableEq

/-- Modelled from the spec: `ciclo.logs()` creates an empty log container. -/
def logs : Logs := ⟨none⟩

/-- Modelled from the spec: `logs.add_metrics(m, stateful=True)` records
`m` as the stateful metrics of the log container. -/
def Logs.add_metrics (l : Logs) (m : ComputedMetrics) (stateful : Bool) : Logs :=
  if stateful then { l with stateful_metrics := some m } else l

end ciclo

/-- The script's `eval_step`: logits and mean cross-entropy from the
current parameters, metrics update, computed metrics logged as stateful,
and the state returned via `state.replace(metrics=metrics)`. -/
def eval_step {O : Type} (F : Framework) (state : TrainState O) (batch : Batch) :
    ciclo.Logs × TrainState O :=
  let logits := state.apply_fn state.params batch.image
  let loss := F.softmaxCEMean logits batch.label
  let metrics := state.metrics.update ⟨loss, logits, batch.label⟩
  let logs := ciclo.logs.add_metrics metrics.compute true
  (logs, { state with metrics := metrics })

/-- The script's `reset_metrics(state, batch, _)`: the batch and third
arguments are ignored (hence the arbitrary types), and the state is
returned with `metrics` replaced by `state.metrics.empty()` — the
`Collection.empty` classmethod, whose result is independent of the
instance it is called on. -/
def reset_metrics {O β γ : Type} (state : TrainState O) (batch : β) (x : γ) :
    TrainState O :=
  { state with metrics := Metrics.empty }

/-- The script's state initialization: `TrainState.create(apply_fn=model.apply,
params=variables["params"], tx=optax.adamw(1e-3), metrics=Metrics.empty())`.
The randomly initialized parameters and the `adamw` transformation are
parameters of the embedding. -/
def scriptInitialState {O : Type} (initParams : DenseParams)
    (tx : GradientTransformation O) : TrainState O :=
  TrainState.create Linear.call initParams tx Metrics.empty

/-- `batch_size = 32`. -/
def batch_size : Nat := 32

/-- `total_samples = 32 * 100`. -/
def total_samples : Nat := 32 * 100

/-- `total_steps = total_samples // batch_size`. -/
def total_steps : Nat := total_samples / batch_size

/-- `eval_steps = total_steps // 10`. -/
def eval_steps : Nat := total_steps / 10

/-- `log_steps = total_steps // 50`. -/
def log_steps : Nat := total_steps / 50

/-- Modelled from the spec: `ciclo.every(k)` triggers its callbacks once
every `k` steps of the loop, i.e. at the 0-indexed steps `n` with
`(n + 1) % k = 0`. -/
def firesAt (period n : Nat) : Bool := (n + 1) % period == 0

/-- One callback slot of the `ciclo.loop` schedule, carrying exactly the
configuration the script passes (monitor names, modes, patience, inner
schedules and their `on_start` lists, progress-bar total). -/
inductive LoopCallback where
  | trainStepCB : LoopCallback
  | computeMetricsCB : LoopCallback
  | resetMetricsCB : LoopCallback
  | evalStepCB : LoopCallback
  | innerLoop (name : String) (schedule : List (Nat × List LoopCallback))
      (onStart : List LoopCallback) : LoopCallback
  | checkpoint (monitor : String) (mode : String) : LoopCallback
  | earlyStopping (monitor : String) (mode : String) (patience : Nat) : LoopCallback
  | kerasBar (total : Nat) : LoopCallback

/-- The schedule of the validation inner loop:
`{ciclo.every(1): eval_step}` with `on_start=[reset_metrics]`. -/
def validInnerSchedule : List (Nat × List LoopCallback) :=
  [(1, [LoopCallback.evalStepCB])]

/-- The callback table the script passes to `ciclo.loop`, entry for entry:
`every(1)` runs `train_step`; `every(log_steps)` runs `compute_metrics`
then `reset_metrics`; `every(eval_steps)` runs the "valid" inner loop
(schedule `{every(1): eval_step}`, `on_start=[reset_metrics]`), then
`ciclo.checkpoint(..., monitor="accuracy_valid", mode="max")`, then
`ciclo.early_stopping(monitor="accuracy_valid", mode="max",
patience=eval_steps * 2)`; and the splatted `ciclo.keras_bar(total=
total_steps)` contributes an every-step progress-bar entry (modelled from
the spec's "progress display"). -/
def mnistSchedule : List (Nat × List LoopCallback) :=
  [ (1, [LoopCallback.trainStepCB]),
    (log_steps, [LoopCallback.computeMetricsCB, LoopCallback.resetMetricsCB]),
    (eval_steps,
      [LoopCallback.innerLoop "valid" validInnerSchedule
        [LoopCallback.resetMetricsCB],
       LoopCallback.checkpoint "accuracy_valid" "max",
       LoopCallback.earlyStopping "accuracy_valid" "max" (eval_steps * 2)]),
    (1, [LoopCallback.kerasBar total_steps]) ]

/-- The `stop=total_steps` argument of the `ciclo.loop` call. -/
def mnistStop : Nat := total_steps

/-- Modelled from the spec: the callbacks the loop driver runs at step `n`,
in schedule order — those of every entry whose period fires at `n`. -/
def callbacksAt (sched : List (Nat × List LoopCallback)) (n : Nat) :
    List LoopCallback :=
  (sched.filter (fun e => firesAt e.1 n)).flatMap (fun e => e.2)

/-- Whether running a callback invokes `reset_metrics`: directly, or as the
`on_start` list of an inner loop (run when the inner loop starts). -/
def invokesReset (c : LoopCallback) : Bool :=
  match c with
  | LoopCallback.resetMetricsCB => true
  | LoopCallback.innerLoop _ _ onStart =>
      onStart.any (fun c2 =>
        match c2 with
        | LoopCallback.resetMetricsCB => true
        | _ => false)
  | _ => false

/-- Whether step `n` of the script's loop invokes `reset_metrics`. -/
def resetInvokedAt (n : Nat) : Bool :=
  (callbacksAt mnistSchedule n).any invokesReset

/-- The training state with the model application allowed to fail (shape
mismatches and the like surface in the framework call), for the
error-propagation analysis of the step functions. Fields as in
`TrainState`. -/
structure TrainStateE (O : Type) where
  step : Nat
  apply_fn : DenseParams → List Image → Except String (List (List Rat))
  params : DenseParams
  tx : GradientTransformation O
  opt_state : O
  metrics : Metrics

/-- The framework primitives in the fallible rendering: each call may
raise, which the embedding represents as `Except.error`. -/
structure FrameworkE where
  softmaxCEMean : List (List Rat) → List Nat → Except String Rat
  gradOf : (DenseParams → Except String (Rat × List (List Rat))) →
      DenseParams → Except String DenseParams

/-- `TrainState.apply_gradients` on the fallible state (pure: no framework
call inside it can raise in the script's use). -/
def TrainStateE.apply_gradients {O : Type} (s : TrainStateE O)
    (grads : DenseParams) : TrainStateE O :=
  let r := s.tx.update grads s.opt_state s.params
  { s with step := s.step + 1, params := applyUpdates s.params r.1, opt_state := r.2 }

/-- The closure `loss_fn`, fallible rendering: the body is the same
straight-line sequence of framework calls, with no handler around any of
them. -/
def loss_fnE {O : Type} (F : FrameworkE) (state : TrainStateE O) (batch : Batch)
    (params : DenseParams) : Except String (Rat × List (List Rat)) := do
  let logits ← state.apply_fn params batch.image
  let loss ← F.softmaxCEMean logits batch.label
  pure (loss, logits)

/-- `train_step`, fallible rendering: every framework call is sequenced
directly, with no try/except anywhere in the body. -/
def train_stepE {O : Type} (F : FrameworkE) (state : TrainStateE O) (batch : Batch) :
    Except String (TrainStateE O) := do
  let v ← loss_fnE F state batch state.params
  let grads ← F.gradOf (loss_fnE F state batch) state.params
  let state2 := state.apply_gradients grads
  pure { state2 with metrics := state2.metrics.update ⟨v.1, v.2, batch.label⟩ }

/-- `eval_step`, fallible rendering. -/
def eval_stepE {O : Type} (F : FrameworkE) (state : TrainStateE O) (batch : Batch) :
    Except String (ciclo.Logs × TrainStateE O) := do
  let logits ← state.apply_fn state.params batch.image
  let loss ← F.softmaxCEMean logits batch.label
  let metrics := state.metrics.update ⟨loss, logits, batch.label⟩
  pure (ciclo.logs.add_metrics metrics.compute true, { state with metrics := metrics })

/-- `compute_metrics`, fallible rendering: its body makes no fallible
framework call, so it always succeeds. -/
def compute_metricsE {O : Type} (state : TrainStateE O) : Except String StepLogs :=
  pure ⟨state.metrics.compute⟩

/-- `reset_metrics`, fallible rendering: its body makes no fallible
framework call, so it always succeeds. -/
def reset_metricsE {O β γ : Type} (state : TrainStateE O) (batch : β) (x : γ) :
    Except String (TrainStateE O) :=
  pure { state with metrics := Metrics.empty }

/-- A trivial gradient transformation over optimizer-state type `Unit`,
used to instantiate the framework-parametric theorems on concrete inputs. -/
def sampleTx : GradientTransformation Unit :=
  ⟨fun _ => (), fun g o _ => (g, o)⟩

/-- Concrete parameters used to instantiate theorems on concrete inputs. -/
def sampleParams : DenseParams := ⟨[[1, 0], [0, 1]], [0, 0]⟩

/-- A concrete instantiation of the abstract framework primitives. -/
def sampleFramework : Framework :=
  ⟨fun _ _ => 1, fun _ _ => sampleParams⟩

/-- A concrete state used to instantiate theorems on concrete inputs. -/
def sampleState : TrainState Unit :=
  { step := 3, apply_fn := Linear.call, params := sampleParams, tx := sampleTx,
    opt_state := (), metrics := ⟨⟨5, 2⟩, ⟨1, 2⟩⟩ }

/-- A concrete batch used to instantiate theorems on concrete inputs. -/
def sampleBatch : Batch := ⟨[[[2, 4]]], [1]⟩

/-- A fallible state whose model application raises, used to instantiate
the error-propagation theorem on a concrete input. -/
def sampleStateE : TrainStateE Unit :=
  { step := 0, apply_fn := fun _ _ => Except.error "shape mismatch",
    params := sampleParams, tx := sampleTx, opt_state := (),
    metrics := Metrics.empty }

/-- A concrete instantiation of the fallible framework primitives. -/
def sampleFrameworkE : FrameworkE :=
  ⟨fun _ _ => Except.ok 1, fun _ _ => Except.ok sampleParams⟩

/-! ## Helper lemmas -/

theorem flatten_length_const (l : List (List Rat)) (c : Nat)
    (h : ∀ r ∈ l, r.length = c) : l.flatten.length = c * l.length := by
  induction l with
  | nil => simp
  | cons r t ih =>
    simp only [List.flatten_cons, List.length_append, List.length_cons]
    rw [h r (List.mem_cons_self r t), ih (fun x hx => h x (List.mem_cons_of_mem r hx))]
    ring

theorem dot_add (v w col : List Rat) (h : v.length = w.length) :
    dot (List.zipWith (fun a c => a + c) v w) col = dot v col + dot w col := by
  induction v generalizing w col with
  | nil =>
    cases w with
    | nil => simp [dot]
    | cons y ys => simp at h
  | cons x xs ih =>
    cases w with
    | nil => simp at h
    | cons y ys =>
      cases col with
      | nil => simp [dot]
      | cons z zs =>
        have hlen : xs.length = ys.length := by simpa using h
        have := ih ys zs hlen
        simp only [List.zipWith, dot, List.sum_cons] at this ⊢
        rw [this]
        ring

theorem denseApply_affine (K : List (List Rat)) (B v w : List Rat)
    (h : v.length = w.length) :
    List.zipWith (fun a c => a + c)
        (denseApply ⟨K, B⟩ v) (denseApply ⟨K, B⟩ w) =
    List.zipWith (fun a c => a + c)
        (denseApply ⟨K, B⟩ (List.zipWith (fun a c => a + c) v w)) B := by
  induction K generalizing B with
  | nil => simp [denseApply]
  | cons k ks ih =>
    cases B with
    | nil => simp [denseApply]
    | cons b bs =>
      simp only [denseApply, List.zipWith] at ih ⊢
      rw [dot_add v w k h]
      have := ih bs
      simp only [denseApply] at this
      rw [this]
      congr 1
      ring

/-- The step indices at which the script's loop invokes `reset_metrics` are
exactly those at which the `every(log_steps)` logging entry fires: the
inner loop's `on_start` reset fires every `eval_steps = 10` steps, each of
which is also a `log_steps = 2` boundary. -/
theorem resetInvokedAt_eq_log_boundary (n : Nat) :
    resetInvokedAt n = firesAt log_steps n := by
  have hl : log_steps = 2 := by norm_num [log_steps, total_steps, total_samples, batch_size]
  have he : eval_steps = 10 := by norm_num [eval_steps, total_steps, total_samples, batch_size]
  by_cases h2 : (n + 1) % 2 = 0
  · by_cases h10 : (n + 1) % 10 = 0 <;>
      simp [resetInvokedAt, callbacksAt, mnistSchedule, validInnerSchedule,
        firesAt, invokesReset, hl, he, h2, h10, List.filter, Nat.mod_one]
  · have h10 : ¬ (n + 1) % 10 = 0 := by omega
    have hb2 : ((n + 1) % 2 == 0) = false := by simp [h2]
    have hb10 : ((n + 1) % 10 == 0) = false := by simp [h10]
    simp [resetInvokedAt, callbacksAt, mnistSchedule, validInnerSchedule,
      firesAt, invokesReset, hl, he, hb2, hb10, List.filter, Nat.mod_one]

/-! ## Claim theorems -/

/-- C2: the training state is created exactly once, by `TrainState.create`
(step 0, optimizer state from `tx.init`); `train_step` returns a functional
replacement of the gradient-updated input state and `eval_step` a
functional replacement of the input state itself (each preserving the
identity fields `apply_fn` and `tx`), never a freshly created state; and
`reset_metrics` replaces the metrics by the empty collection, which the
loop schedule invokes exactly when the logging window of `log_steps` steps
elapses. -/
theorem C2_state_lifecycle {O β γ : Type} (F : Framework) (p : DenseParams)
    (tx : GradientTransformation O) (s : TrainState O) (b : Batch)
    (b2 : β) (x : γ) :
    scriptInitialState p tx = TrainState.create Linear.call p tx Metrics.empty ∧
    (scriptInitialState p tx).step = 0 ∧
    (scriptInitialState p tx).opt_state = tx.init p ∧
    (scriptInitialState p tx).metrics = Metrics.empty ∧
    train_step F s b =
      { s.apply_gradients (F.gradOf (loss_fn F s b) s.params) with
        metrics := (train_step F s b).metrics } ∧
    (train_step F s b).apply_fn = s.apply_fn ∧
    (train_step F s b).tx = s.tx ∧
    (eval_step F s b).2 = { s with metrics := (eval_step F s b).2.metrics } ∧
    (eval_step F s b).2.apply_fn = s.apply_fn ∧
    (eval_step F s b).2.tx = s.tx ∧
    reset_metrics s b2 x = { s with metrics := Metrics.empty } ∧
    (∀ n : Nat, resetInvokedAt n = firesAt log_steps n) :=
  ⟨rfl, rfl, rfl, rfl, rfl, rfl, rfl, rfl, rfl, rfl, rfl,
   resetInvokedAt_eq_log_boundary⟩

/-- C5: `Metrics.update` merges the single-batch collection built by
`single_from_model_output` into the running collection, so successive
updates accumulate totals and counts instead of overwriting them. -/
theorem C5_update_accumulates (m : Metrics) (kw kw2 : ModelOutput) :
    m.update kw = m.merge (Metrics.single_from_model_output kw) ∧
    (m.update kw).loss.total = m.loss.total + kw.loss ∧
    (m.update kw).loss.count = m.loss.count + 1 ∧
    ((m.update kw).update kw2).loss.total = m.loss.total + kw.loss + kw2.loss ∧
    ((m.update kw).update kw2).loss.count = m.loss.count + 2 ∧
    ((m.update kw).update kw2).accuracy.total =
      m.accuracy.total + correctTotal kw.logits kw.labels +
        correctTotal kw2.logits kw2.labels ∧
    ((m.update kw).update kw2).accuracy.count =
      m.accuracy.count + kw.labels.length + kw2.labels.length := by
  refine ⟨rfl, rfl, rfl, ?_, ?_, ?_, ?_⟩ <;>
    simp [Metrics.update, Metrics.merge, AverageState.merge,
      Metrics.single_from_model_output, add_assoc]

/-- C6: `reset_metrics` returns its input state with the metrics field
replaced by the empty collection and every other field (`params`,
`opt_state`, `step`, `apply_fn`, and also `tx`) unchanged, for every state,
batch, and third argument. -/
theorem C6_reset_metrics_frame {O β γ : Type} (s : TrainState O) (b : β) (x : γ) :
    reset_metrics s b x = { s with metrics := Metrics.empty } ∧
    (reset_metrics s b x).metrics = Metrics.empty ∧
    (reset_metrics s b x).params = s.params ∧
    (reset_metrics s b x).opt_state = s.opt_state ∧
    (reset_metrics s b x).step = s.step ∧
    (reset_metrics s b x).apply_fn = s.apply_fn ∧
    (reset_metrics s b x).tx = s.tx :=
  ⟨rfl, rfl, rfl, rfl, rfl, rfl, rfl⟩

/-- C8: the loss and logits that `train_step` records into the returned
state's metrics are computed from the input state's parameters (the model
before the update), while the parameters carried in the same returned
state are the post-gradient-update parameters and the step counter has
advanced. -/
theorem C8_metrics_from_preupdate_params {O : Type} (F : Framework)
    (s : TrainState O) (b : Batch) :
    (train_step F s b).metrics =
      s.metrics.update
        ⟨F.softmaxCEMean (s.apply_fn s.params b.image) b.label,
         s.apply_fn s.params b.image, b.label⟩ ∧
    (train_step F s b).params =
      applyUpdates s.params
        (s.tx.update (F.gradOf (loss_fn F s b) s.params) s.opt_state s.params).1 ∧
    (train_step F s b).step = s.step + 1 :=
  ⟨rfl, rfl, rfl⟩

/-- C9: the state returned by `eval_step` differs from the input state only
in its metrics field: `params`, `opt_state`, `step`, `apply_fn` (and `tx`)
are returned unchanged — evaluation neither trains nor advances the step
counter. -/
theorem C9_eval_step_frame {O : Type} (F : Framework) (s : TrainState O)
    (b : Batch) :
    (eval_step F s b).2 = { s with metrics := (eval_step F s b).2.metrics } ∧
    (eval_step F s b).2.params = s.params ∧
    (eval_step F s b).2.opt_state = s.opt_state ∧
    (eval_step F s b).2.step = s.step ∧
    (eval_step F s b).2.apply_fn = s.apply_fn ∧
    (eval_step F s b).2.tx = s.tx ∧
    (eval_step F s b).2.metrics =
      s.metrics.update
        ⟨F.softmaxCEMean (s.apply_fn s.params b.image) b.label,
         s.apply_fn s.params b.image, b.label⟩ :=
  ⟨rfl, rfl, rfl, rfl, rfl, rfl, rfl⟩

/-- C10: the result of `reset_metrics` depends only on its state argument:
for any two pairs of values (of any types) for the batch and third
parameters, the outputs coincide. -/
theorem C10_reset_metrics_ignores_arguments {O β1 γ1 β2 γ2 : Type}
    (s : TrainState O) (b1 : β1) (x1 : γ1) (b2 : β2) (x2 : γ2) :
    reset_metrics s b1 x1 = reset_metrics s b2 x2 :=
  rfl

/-- C1: the `ciclo.loop` call is configured with `train_step` on every
step; `compute_metrics` followed by `reset_metrics` every
`log_steps = total_steps / 50` steps; every `eval_steps = total_steps / 10`
steps the "valid" inner loop (running `eval_step` every inner step) is
followed by a checkpoint and an early-stopping callback, both monitoring
"accuracy_valid" with mode "max", the latter with patience
`eval_steps * 2`; a progress bar over `total_steps` is installed; and the
loop stops at `total_steps = total_samples / batch_size = 100` steps. -/
theorem C1_loop_configuration :
    total_steps = 100 ∧
    total_steps = total_samples / batch_size ∧
    log_steps = total_steps / 50 ∧
    eval_steps = total_steps / 10 ∧
    mnistStop = total_steps ∧
    (∀ n : Nat, LoopCallback.trainStepCB ∈ callbacksAt mnistSchedule n) ∧
    (log_steps, [LoopCallback.computeMetricsCB, LoopCallback.resetMetricsCB])
      ∈ mnistSchedule ∧
    (∀ n : Nat, LoopCallback.computeMetricsCB ∈ callbacksAt mnistSchedule n ↔
      (n + 1) % log_steps = 0) ∧
    (eval_steps,
      [LoopCallback.innerLoop "valid" validInnerSchedule
        [LoopCallback.resetMetricsCB],
       LoopCallback.checkpoint "accuracy_valid" "max",
       LoopCallback.earlyStopping "accuracy_valid" "max" (eval_steps * 2)])
      ∈ mnistSchedule ∧
    validInnerSchedule = [(1, [LoopCallback.evalStepCB])] ∧
    (1, [LoopCallback.kerasBar total_steps]) ∈ mnistSchedule := by
  refine ⟨by norm_num [total_steps, total_samples, batch_size], rfl, rfl, rfl,
    rfl, ?_, by simp [mnistSchedule], ?_, by simp [mnistSchedule], rfl,
    by simp [mnistSchedule]⟩
  · intro n
    refine List.mem_flatMap.mpr ⟨(1, [LoopCallback.trainStepCB]), ?_, by simp⟩
    exact List.mem_filter.mpr ⟨by simp [mnistSchedule], by simp [firesAt, Nat.mod_one]⟩
  · intro n
    constructor
    · intro h
      obtain ⟨e, he, hc⟩ := List.mem_flatMap.mp h
      obtain ⟨hmem, hfire⟩ := List.mem_filter.mp he
      simp only [mnistSchedule, List.mem_cons, List.not_mem_nil, or_false] at hmem
      rcases hmem with rfl | rfl | rfl | rfl
      · simp at hc
      · simpa [firesAt] using hfire
      · simp [validInnerSchedule] at hc
      · simp at hc
    · intro h
      refine List.mem_flatMap.mpr
        ⟨(log_steps, [LoopCallback.computeMetricsCB, LoopCallback.resetMetricsCB]),
         List.mem_filter.mpr ⟨by simp [mnistSchedule], by simp [firesAt, h]⟩,
         by simp⟩

/-- C3: the model is a one-layer linear classifier: its output is exactly
one Dense layer applied to the input scaled by `1/255` and flattened; with
the 10-feature parameters the script's `nn.Dense(features=10)` creates,
every output row has length 10; a 28 × 28 input flattens to length 784;
and the Dense map is affine (in particular it applies no nonlinear
activation). -/
theorem C3_one_layer_linear (p : DenseParams) (xs : List Image)
    (hk : p.kernel.length = 10) (hb : p.bias.length = 10) :
    Linear.call p xs =
      xs.map (fun img => denseApply p (flattenImage (scaleImage img))) ∧
    (∀ y ∈ Linear.call p xs, y.length = 10) ∧
    (∀ img : Image, img.length = 28 → (∀ row ∈ img, row.length = 28) →
      (flattenImage (scaleImage img)).length = 784) ∧
    (∀ v w : List Rat, v.length = w.length →
      List.zipWith (fun a c => a + c) (denseApply p v) (denseApply p w) =
      List.zipWith (fun a c => a + c)
        (denseApply p (List.zipWith (fun a c => a + c) v w)) p.bias) := by
  refine ⟨rfl, ?_, ?_, ?_⟩
  · intro y hy
    simp only [Linear.call, List.mem_map] at hy
    obtain ⟨img, _, rfl⟩ := hy
    simp [denseApply, List.length_zipWith, hk, hb]
  · intro img h28 hrow
    have hs : ∀ r ∈ scaleImage img, r.length = 28 := by
      intro r hr
      simp only [scaleImage, List.mem_map] at hr
      obtain ⟨row, hrow2, rfl⟩ := hr
      simp [hrow row hrow2]
    rw [flattenImage, flatten_length_const (scaleImage img) 28 hs]
    simp [scaleImage, h28]
  · intro v w h
    obtain ⟨K, B⟩ := p
    exact denseApply_affine K B v w h

/-- Witness for C3: concrete 10-feature parameters satisfy the hypotheses,
and a concrete 28 × 28 image flattens to a length-784 vector. -/
theorem C3_one_layer_linear_witness :
    (flattenImage (scaleImage
      (List.replicate 28 (List.replicate 28 (0 : Rat))))).length = 784 :=
  (C3_one_layer_linear ⟨List.replicate 10 [1], List.replicate 10 0⟩ []
      (by simp) (by simp)).2.2.1
    (List.replicate 28 (List.replicate 28 (0 : Rat)))
    (by simp)
    (fun row hrow => by rw [List.eq_of_mem_replicate hrow]; simp)

/-- C4 counterexample: the training-state record does not bundle exactly
model parameters, optimizer state, and the metrics collection — two
concrete states agree on all three of those fields yet differ, because the
record also carries a step counter (and an apply function and gradient
transformation). -/
theorem C4_counterexample :
    ¬ (∀ s1 s2 : TrainState Unit, s1.params = s2.params →
        s1.opt_state = s2.opt_state → s1.metrics = s2.metrics → s1 = s2) := by
  intro h
  have h01 := h
    { step := 0, apply_fn := fun _ _ => [], params := sampleParams,
      tx := sampleTx, opt_state := (), metrics := Metrics.empty }
    { step := 1, apply_fn := fun _ _ => [], params := sampleParams,
      tx := sampleTx, opt_state := (), metrics := Metrics.empty }
    rfl rfl rfl
  have h01' : (0 : Nat) = 1 := congrArg TrainState.step h01
  exact absurd h01' (by decide)

/-- C4 (amended): the training-state record bundles model parameters,
optimizer state, and the metrics collection together with the inherited
step counter, apply function, and gradient transformation — these six
fields determine it; and the metrics collection consists of exactly two
metrics, a running average of the `loss` output and an accuracy metric
accumulating the count of correct argmax predictions. -/
theorem C4_trainstate_fields {O : Type} (s1 s2 : TrainState O)
    (m1 m2 : Metrics) (kw : ModelOutput)
    (hstep : s1.step = s2.step) (happ : s1.apply_fn = s2.apply_fn)
    (hp : s1.params = s2.params) (htx : s1.tx = s2.tx)
    (ho : s1.opt_state = s2.opt_state) (hm : s1.metrics = s2.metrics)
    (hl : m1.loss = m2.loss) (ha : m1.accuracy = m2.accuracy) :
    s1 = s2 ∧ m1 = m2 ∧
    (m1.update kw).loss = ⟨m1.loss.total + kw.loss, m1.loss.count + 1⟩ ∧
    (m1.update kw).accuracy =
      ⟨m1.accuracy.total + correctTotal kw.logits kw.labels,
       m1.accuracy.count + kw.labels.length⟩ := by
  obtain ⟨a1, b1, c1, d1, e1, f1⟩ := s1
  obtain ⟨a2, b2, c2, d2, e2, f2⟩ := s2
  obtain ⟨l1, ac1⟩ := m1
  obtain ⟨l2, ac2⟩ := m2
  simp_all [Metrics.update, Metrics.merge, AverageState.merge,
    Metrics.single_from_model_output]

/-- Witness for C4 (amended) at concrete states, metrics, and output. -/
theorem C4_trainstate_fields_witness :
    sampleState = sampleState ∧ Metrics.empty = Metrics.empty ∧
    ((Metrics.empty).update ⟨2, [[1]], [0]⟩).loss =
      ⟨Metrics.empty.loss.total + 2, Metrics.empty.loss.count + 1⟩ ∧
    ((Metrics.empty).update ⟨2, [[1]], [0]⟩).accuracy =
      ⟨Metrics.empty.accuracy.total + correctTotal [[1]] [0],
       Metrics.empty.accuracy.count + [0].length⟩ :=
  C4_trainstate_fields sampleState sampleState Metrics.empty Metrics.empty
    ⟨2, [[1]], [0]⟩ rfl rfl rfl rfl rfl rfl rfl rfl

theorem exceptBind_ok {α β : Type} (a : α) (f : α → Except String β) :
    (Except.ok a >>= f) = f a := rfl

theorem exceptBind_error {α β : Type} (e : String) (f : α → Except String β) :
    ((Except.error e : Except String α) >>= f) = Except.error e := rfl

theorem exceptMap_error {α β : Type} (e : String) (f : α → β) :
    (f <$> (Except.error e : Except String α)) = Except.error e := rfl

/-- C7: none of the step functions handles exceptions or raises its own:
in the fallible rendering, an error from the model application or the loss
primitive propagates unchanged out of `train_step` and `eval_step`, an
error from the gradient primitive propagates unchanged out of
`train_step`, and `compute_metrics` and `reset_metrics` (which make no
fallible framework call) always succeed. -/
theorem C7_errors_propagate {O : Type} (F : FrameworkE) (s : TrainStateE O)
    (b : Batch) :
    (∀ e, s.apply_fn s.params b.image = Except.error e →
      train_stepE F s b = Except.error e) ∧
    (∀ e logits, s.apply_fn s.params b.image = Except.ok logits →
      F.softmaxCEMean logits b.label = Except.error e →
      train_stepE F s b = Except.error e) ∧
    (∀ e v, loss_fnE F s b s.params = Except.ok v →
      F.gradOf (loss_fnE F s b) s.params = Except.error e →
      train_stepE F s b = Except.error e) ∧
    (∀ e, s.apply_fn s.params b.image = Except.error e →
      eval_stepE F s b = Except.error e) ∧
    (∀ e logits, s.apply_fn s.params b.image = Except.ok logits →
      F.softmaxCEMean logits b.label = Except.error e →
      eval_stepE F s b = Except.error e) ∧
    compute_metricsE s = Except.ok ⟨s.metrics.compute⟩ ∧
    reset_metricsE s b 0 = Except.ok { s with metrics := Metrics.empty } := by
  refine ⟨?_, ?_, ?_, ?_, ?_, rfl, rfl⟩
  · intro e h
    simp only [train_stepE, loss_fnE, h, exceptBind_error, exceptBind_ok,
      exceptMap_error]
  · intro e logits h1 h2
    simp only [train_stepE, loss_fnE, h1, exceptBind_ok, h2, exceptBind_error,
      exceptMap_error]
  · intro e v h1 h2
    simp only [train_stepE, h1, exceptBind_ok, h2, exceptBind_error,
      exceptMap_error]
  · intro e h
    simp only [eval_stepE, h, exceptBind_error, exceptBind_ok, exceptMap_error]
  · intro e logits h1 h2
    simp only [eval_stepE, h1, exceptBind_ok, h2, exceptBind_error,
      exceptMap_error]

/-- Witness for C7: a concrete state whose model application fails with
"shape mismatch" makes `train_step` fail with exactly that error. -/
theorem C7_errors_propagate_witness :
    train_stepE sampleFrameworkE sampleStateE sampleBatch =
      Except.error "shape mismatch" :=
  (C7_errors_propagate sampleFrameworkE sampleStateE sampleBatch).1
    "shape mismatch" rfl
